import Mathlib

/-! Verification of the malpolon_poverty data-loading and crash-handling
subsystem.

Shallow embedding of:
* `examples/poverty/datamodule/landsat_poverty.py` — `PovertyDataModule`,
  `MSDataset.__getitem__` (tile fetch);
* `examples/poverty/cnn_on_ms_poverty.py` — `main` (fold loop),
  `swap_observation_columns_csv`;
* `malpolon/models/utils.py` — `CrashHandler`, `check_metric`.

Python machine-level conventions used throughout:
* exceptions are modelled by `Except PyErr`;
* a pixel read from a raster file is either a number or NaN, modelled by the
  inductive type `Px` (floating-point arithmetic apart from NaN-ness plays no
  role in any claim, so numeric payloads are rationals);
* `np.empty` returns a buffer with arbitrary prior memory contents; that
  arbitrary content is passed in explicitly as a `mem` parameter;
* randomness (`torch.randperm` inside `torch.utils.data.random_split`) is
  passed in explicitly as a permutation parameter.
-/

/-- Python exceptions that the embedded code can raise. -/
inductive PyErr where
  /-- Raised by `rasterio.open` on a non-existent path (`RasterioIOError`); the spec
  calls this `TileNotFoundError`. -/
  | rasterioNotFound (path : String)
  /-- numpy / pandas index out of range. -/
  | indexError
  /-- Python `ValueError`. -/
  | valueError (msg : String)
  /-- Python `KeyError` on a missing dict key. -/
  | keyError (key : String)
  /-- Python `NameError`: `eval` on a name bound nowhere. -/
  | nameError (name : String)
  /-- Python `TypeError`, e.g. item assignment on a `str`. -/
  | typeError (msg : String)
  /-- Raised by `pd.read_csv` on a non-existent path (`FileNotFoundError`). -/
  | fileNotFound (path : String)
deriving DecidableEq, Repr

/-- Python path joining (`pathlib`'s `/` and `os.path.join`): join two path segments with a single
separator. -/
def pathJoin (a b : String) : String :=
  if a.data.getLast? = some '/' then a ++ b else a ++ "/" ++ b

/- ### CrashHandler (`malpolon/models/utils.py`, lines 20-34) -/

/-- Observable side effects of the crash handler. -/
inductive Event where
  | print (msg : String)
  /-- Marks that `trainer.save_checkpoint(path)` completed. -/
  | saveCheckpoint (path : String)
  /-- Marks that `exit(code)` was executed. -/
  | exited (code : Nat)
deriving DecidableEq, Repr

/-- The external training orchestrator, as far as `CrashHandler` observes it:
its logger's `log_dir`, and whether its `save_checkpoint` call raises
(`saveFails = some e`) or succeeds (`saveFails = none`). -/
structure Trainer where
  log_dir : String
  saveFails : Option PyErr
deriving DecidableEq, Repr

/-- The value of `signal.SIGINT` on POSIX platforms. -/
def SIGINT : Nat := 2

/-- State built by `CrashHandler.__init__`: it stores the trainer and the
checkpoint path `Path(trainer.logger.log_dir) / "crash_latest_checkpoint.ckpt"`. -/
structure CrashHandler where
  trainer : Trainer
  ckpt_dir_path : String
deriving DecidableEq, Repr

/-- Python `CrashHandler.__init__(trainer)`: builds the handler state and registers
`signal_handler` for `SIGINT`.  Returns the handler together with the signal
number it was registered for. -/
def crashHandlerMk (trainer : Trainer) : CrashHandler × Nat :=
  ({ trainer := trainer
     ckpt_dir_path := pathJoin trainer.log_dir "crash_latest_checkpoint.ckpt" },
   SIGINT)

/-- Python `CrashHandler.save_checkpoint`: prints, then calls the trainer's
`save_checkpoint`, which may raise.  Returns the trace of events and the
normal/exceptional outcome. -/
def save_checkpoint (h : CrashHandler) : List Event × Except PyErr Unit :=
  match h.trainer.saveFails with
  | none => ([Event.print "Saving lastest checkpoint...",
              Event.saveCheckpoint h.ckpt_dir_path], Except.ok ())
  | some e => ([Event.print "Saving lastest checkpoint..."], Except.error e)

/-- Python `CrashHandler.signal_handler(sig, frame)`: prints the diagnostic, calls
`save_checkpoint` (no try/except around it), then `exit(0)`.  If
`save_checkpoint` raises, the exception propagates and `exit(0)` is never
reached. -/
def signal_handler (h : CrashHandler) (sig : Nat) : List Event × Except PyErr Unit :=
  let pre := [Event.print ("Received signal " ++ toString sig ++ ". Performing cleanup...")]
  match save_checkpoint h with
  | (tr, Except.ok _) => (pre ++ tr ++ [Event.exited 0], Except.ok ())
  | (tr, Except.error e) => (pre ++ tr, Except.error e)

/-- Final state of the whole process after a handler run. -/
inductive ProcOutcome where
  | exited (code : Nat)
deriving DecidableEq, Repr

/-- Modelled from the spec: the Python runtime layer around the handler is not
part of the repository's sources.  A handler that returns normally after
executing `exit(0)` terminates the process with code 0; an exception that
propagates out of the handler is unhandled, and per the spec's exit-code
contract ("0 on user-interrupt-triggered shutdown; nonzero on unhandled
configuration/lookup errors (delegated to the orchestrator's default
behavior)") the runtime terminates the process with a nonzero code. -/
def processOutcome (r : List Event × Except PyErr Unit) : ProcOutcome :=
  match r.2 with
  | Except.ok _ => ProcOutcome.exited 0
  | Except.error _ => ProcOutcome.exited 1

/- ### check_metric (`malpolon/models/utils.py`, lines 36-71) -/

/-- A resolved metric callable (the torchmetrics functionals are opaque
values; only which one was picked is observable). -/
inductive Callable where
  | fmet (name : String)
deriving DecidableEq, Repr

/-- The module constant `FMETRICS_CALLABLES`: names with a registered
callable. -/
def FMETRICS_CALLABLES : List (String × Callable) :=
  [("binary_accuracy", Callable.fmet "binary_accuracy"),
   ("multiclass_accuracy", Callable.fmet "multiclass_accuracy"),
   ("multilabel_accuracy", Callable.fmet "multilabel_accuracy")]

/-- Names that `eval` can resolve in the module's global namespace (the
`torchmetrics.functional` members imported there).  Any other string raises
`NameError`. -/
def EVAL_GLOBALS : List (String × Callable) :=
  [("Fmetrics.classification.binary_accuracy", Callable.fmet "binary_accuracy"),
   ("Fmetrics.classification.multiclass_accuracy", Callable.fmet "multiclass_accuracy"),
   ("Fmetrics.classification.multilabel_accuracy", Callable.fmet "multilabel_accuracy")]

/-- Python `eval(s)` restricted to what the source can resolve: a known global
name evaluates to its callable, anything else raises `NameError`. -/
def pyEvalName (s : String) : Except PyErr Callable :=
  match EVAL_GLOBALS.find? (fun p => p.1 == s) with
  | some p => Except.ok p.2
  | none => Except.error (PyErr.nameError s)

/-- One value of the `metrics` config dict: either a dict-like entry
(optionally holding a `callable` key with a string to `eval`), or a plain
string (config files can put anything there). -/
inductive MetricEntry where
  | dict (callableStr : Option String)
  | str (s : String)
deriving DecidableEq, Repr

/-- The `metrics` argument: either dict-like (what `OmegaConf.to_container`
returns as a dict) or something `to_container` rejects with `ValueError`. -/
inductive MetricsConf where
  | dictlike (entries : List (String × MetricEntry))
  | notDictlike (desc : String)
deriving DecidableEq, Repr

/-- Python `'callable' in v` when `v` is a `str`: substring containment. -/
def strContainsCallable (s : String) : Bool :=
  (s.splitOn "callable").length != 1

/-- The body of the `for k, v in metrics.items()` loop for one entry.
* dict with a `callable` key: `eval` the string (may raise `NameError`);
* dict without: look `k` up in `FMETRICS_CALLABLES` (may raise `KeyError`);
* a plain string `v`: `'callable' in v` is substring containment; on the
  then-branch `v['callable']` raises `TypeError` (string indices must be
  integers); on the else-branch, after a successful `FMETRICS_CALLABLES[k]`
  lookup, `metrics[k]['callable'] = ...` raises `TypeError` (str does not
  support item assignment), and a failed lookup raises `KeyError` first. -/
def resolveMetricEntry (k : String) (v : MetricEntry) : Except PyErr Callable :=
  match v with
  | MetricEntry.dict (some expr) => pyEvalName expr
  | MetricEntry.dict none =>
      match FMETRICS_CALLABLES.find? (fun p => p.1 == k) with
      | some p => Except.ok p.2
      | none => Except.error (PyErr.keyError k)
  | MetricEntry.str s =>
      if strContainsCallable s then
        Except.error (PyErr.typeError "string indices must be integers")
      else
        match FMETRICS_CALLABLES.find? (fun p => p.1 == k) with
        | some _ => Except.error (PyErr.typeError "str does not support item assignment")
        | none => Except.error (PyErr.keyError k)

/-- The loop over `metrics.items()`, stopping at the first exception. -/
def resolveMetricEntries :
    List (String × MetricEntry) → Except PyErr (List (String × Callable))
  | [] => Except.ok []
  | (k, v) :: rest =>
      match resolveMetricEntry k v with
      | Except.error e => Except.error e
      | Except.ok c =>
          match resolveMetricEntries rest with
          | Except.error e => Except.error e
          | Except.ok tail => Except.ok ((k, c) :: tail)

/-- Python `check_metric(metrics)`: converts the config to a container (`ValueError`
if it is not dict-like), resolves every entry's callable, and catches exactly
`ValueError` and `KeyError`, printing a warning and returning `None`
(modelled `Except.ok none`).  Any other exception propagates. -/
def check_metric (metrics : MetricsConf) : Except PyErr (Option (List (String × Callable))) :=
  match metrics with
  | MetricsConf.notDictlike _ => Except.ok none
  | MetricsConf.dictlike entries =>
      match resolveMetricEntries entries with
      | Except.ok res => Except.ok (some res)
      | Except.error (PyErr.valueError _) => Except.ok none
      | Except.error (PyErr.keyError _) => Except.ok none
      | Except.error e => Except.error e

/- ### Tiles and `MSDataset` (`landsat_poverty.py`, lines 108-146) -/

/-- One pixel as read by rasterio: NaN or a number (numeric payloads are
rationals; only NaN-ness matters to the claims). -/
inductive Px where
  | nan : Px
  | val : ℚ → Px
deriving DecidableEq, Repr

/-- Python `np.nan_to_num` on one pixel. -/
def nanToNum : Px → Px
  | Px.nan => Px.val 0
  | Px.val q => Px.val q

/-- One 2-D raster band: a list of pixel rows. -/
abbrev Band := List (List Px)

/-- Shape check for one band against the buffer's `[255, 255]` trailing
dimensions (numpy raises on a mismatched 2-D slice assignment; broadcasting
of degenerate shapes is not modelled — no claim exercises it). -/
def bandShapeB (b : Band) : Bool :=
  b.length == 255 && b.all (fun r => r.length == 255)

/-- Python `np.nan_to_num` over a whole band. -/
def nanToNumBand (b : Band) : Band :=
  b.map (fun r => r.map nanToNum)

/-- One GeoTIFF as rasterio exposes it: its bands, in band-index order
(`src.indexes = [1, ..., n]`, `src.read(i)` = `bands[i-1]`). -/
structure RasterFile where
  bands : List Band
deriving DecidableEq, Repr

/-- The tile directory on disk: path ↦ raster file. -/
abbrev TifFS := List (String × RasterFile)

/-- Python `rasterio.open(path)`: the file at `path`, if present. -/
def fsOpen (fs : TifFS) (path : String) : Option RasterFile :=
  (fs.find? (fun p => p.1 == path)).map (fun p => p.2)

/-- One row of the observations CSV (the columns `MSDataset.__getitem__`
and the fold loop touch). -/
structure Record where
  country : String
  year : Int
  cluster : Int
  lat : ℚ
  lon : ℚ
  wealthpooled : ℚ
  urban_rural : String
  fold : Nat
deriving DecidableEq, Repr

/-- Python `MSDataset.__init__`: stores the dataframe and the tile root directory. -/
structure MSDataset where
  dataframe : List Record
  root_dir : String
deriving DecidableEq, Repr

/-- Python `MSDataset.__len__`. -/
def msLen (ds : MSDataset) : Nat := ds.dataframe.length

/-- The path built in `__getitem__`:
`os.path.join(root_dir, f"{country}_{year}", f"{cluster}.tif")`. -/
def tileName (ds : MSDataset) (row : Record) : String :=
  pathJoin (pathJoin ds.root_dir (row.country ++ "_" ++ toString row.year))
    (toString row.cluster ++ ".tif")

/-- The loop `for band in src.indexes[0:-1]: tile[band-1,:,:] = src.read(band)`,
already re-indexed from band numbers to buffer positions `k = band - 1`,
running `k = start, start+1, ...` for `todo` steps over buffer `buf`.
A position outside the buffer's first axis raises `IndexError`; a band whose
2-D shape does not match `[255, 255]` raises `ValueError` on the slice
assignment. -/
def writeBandsFrom (src : List Band) : Nat → Nat → List Band → Except PyErr (List Band)
  | _, 0, buf => Except.ok buf
  | start, todo + 1, buf =>
      if start < buf.length then
        if bandShapeB (src.getD start []) then
          writeBandsFrom src (start + 1) todo (buf.set start (src.getD start []))
        else Except.error (PyErr.valueError "could not broadcast input array")
      else Except.error PyErr.indexError

/-- Python `MSDataset.__getitem__(idx)`.

* `row = self.dataframe.iloc[idx]` (`IndexError` out of range);
* `value = row.wealthpooled`;
* `tile = np.empty([7, 255, 255])` — `mem` is the arbitrary content of that
  freshly allocated buffer (`mem.length = 7` in every run of the real code);
* `rasterio.open` (`RasterioIOError` when the path is absent), then the band
  copy loop over `src.indexes[0:-1]`, i.e. buffer positions `0 .. n-2` for an
  `n`-band file;
* `tile = np.nan_to_num(tile)`;
* returns `(tile, value)` (the float-tensor conversions are identities here). -/
def msGetitem (ds : MSDataset) (fs : TifFS) (mem : List Band) (idx : Nat) :
    Except PyErr (List Band × ℚ) :=
  match ds.dataframe[idx]? with
  | none => Except.error PyErr.indexError
  | some row =>
      let value := row.wealthpooled
      match fsOpen fs (tileName ds row) with
      | none => Except.error (PyErr.rasterioNotFound (tileName ds row))
      | some src =>
          match writeBandsFrom src.bands 0 (src.bands.length - 1) mem with
          | Except.error e => Except.error e
          | Except.ok tile => Except.ok (tile.map nanToNumBand, value)

/- ### PovertyDataModule (`landsat_poverty.py`, lines 62-99) -/

/-- The datamodule state kept by `PovertyDataModule.__init__`.  Note what is
NOT here: `cach_data` and every extra keyword argument (including `fold`) are
accepted by the signature and dropped; the fixed torchvision `transform`
pipeline is never applied by `MSDataset` and carries no data. -/
structure PovertyDataModule where
  dataframe : List Record
  tif_dir : String
  train_batch_size : Nat
  inference_batch_size : Nat
  val_split : ℚ
  num_workers : Nat
deriving DecidableEq, Repr

/-- The CSV store `pd.read_csv` reads from: path ↦ parsed rows. -/
abbrev CsvFS := List (String × List Record)

/-- Python `PovertyDataModule.__init__`.  The `kwargs` argument carries every extra keyword
argument (the caller in `cnn_on_ms_poverty.py` passes `fold=fold+1` this
way); neither it nor `cach_data` reaches the constructed state.
`pd.read_csv(dataset_path + labels_name)` raises `FileNotFoundError` when the
file is absent. -/
def povertyInit (csvFS : CsvFS) (tif_dir dataset_path labels_name : String)
    (train_batch_size inference_batch_size num_workers : Nat)
    (cach_data : Bool) (val_split : ℚ)
    (kwargs : List (String × Int)) : Except PyErr PovertyDataModule :=
  match (csvFS.find? (fun p => p.1 == dataset_path ++ labels_name)).map (fun p => p.2) with
  | none => Except.error (PyErr.fileNotFound (dataset_path ++ labels_name))
  | some df =>
      Except.ok
        { dataframe := df
          tif_dir := dataset_path ++ tif_dir
          train_batch_size := train_batch_size
          inference_batch_size := inference_batch_size
          val_split := val_split
          num_workers := num_workers }

/-- Python `int()` on a rational: truncation toward zero. -/
def pyInt (q : ℚ) : Int :=
  if 0 ≤ q then ⌊q⌋ else -⌊-q⌋

/-- Python `torch.utils.data.random_split(dataset, [train_size, val_size])` for a
dataset of `n` items: raises `ValueError` unless the lengths are non-negative
and sum to `n`; otherwise draws `perm = randperm(n)` (passed in explicitly)
and cuts it into consecutive chunks. -/
def random_split (n : Nat) (train_size val_size : Int) (perm : List Nat) :
    Except PyErr (List Nat × List Nat) :=
  if train_size + val_size = (n : Int) ∧ 0 ≤ train_size ∧ 0 ≤ val_size then
    Except.ok (perm.take train_size.toNat,
               (perm.drop train_size.toNat).take val_size.toNat)
  else Except.error (PyErr.valueError "random_split lengths")

/-- Python `PovertyDataModule.setup`: `val_size = int(len(full_dataset) * val_split)`,
`train_size = len - val_size`, then `random_split`.  Returns the index sets of
`(train_dataset, val_dataset)`.  The records' `fold` column is never read. -/
def povertySetup (m : PovertyDataModule) (perm : List Nat) :
    Except PyErr (List Nat × List Nat) :=
  let n := m.dataframe.length
  let val_size := pyInt ((n : ℚ) * m.val_split)
  let train_size := (n : Int) - val_size
  random_split n train_size val_size perm

/- ### swap_observation_columns_csv (`cnn_on_ms_poverty.py`, lines 116-123) -/

/-- A pandas DataFrame as the reprojection sees it: named columns in order,
each a list of cell values (cells kept as strings, as in the CSV). -/
abbrev ObsFrame := List (String × List String)

/-- Column lookup, first match. -/
def dfGetCol (df : ObsFrame) (c : String) : Option (List String) :=
  (df.find? (fun p => p.1 == c)).map (fun p => p.2)

/-- The fixed column list of `swap_observation_columns_csv`. -/
def SWAP_COLS : List String :=
  ["country", "year", "cluster", "lon", "lat", "households",
   "wealthpooled", "urban_rural", "fold"]

/-- The core of `swap_observation_columns_csv`: `df = df[[...SWAP_COLS...]]`.
pandas raises `KeyError` when any requested column is missing; otherwise the
result holds exactly the requested columns, in the requested order, values
untouched.  (`read_csv`/`to_csv` are inverse serializations and are modelled
as identities around this step.) -/
def swap_observation_columns (df : ObsFrame) : Except PyErr ObsFrame :=
  if SWAP_COLS.all (fun c => (dfGetCol df c).isSome) then
    Except.ok (SWAP_COLS.map (fun c => (c, (dfGetCol df c).getD [])))
  else Except.error (PyErr.keyError "columns not found")

/- ### Concrete fixtures used by witness and counterexample theorems -/

/-- Whether an `Except` result is a normal return (no exception raised). -/
def isOkE {ε α : Type} : Except ε α → Bool
  | Except.ok _ => true
  | Except.error _ => false

/-- A pixel row of 255 numeric values. -/
def stdRow : List Px := List.replicate 255 (Px.val 1)

/-- A well-shaped 255×255 band of numeric values. -/
def stdBand : Band := List.replicate 255 stdRow

/-- A well-shaped 255×255 band whose first pixel is NaN. -/
def nanBand : Band :=
  (Px.nan :: List.replicate 254 (Px.val 1)) :: List.replicate 254 stdRow

/-- Arbitrary prior memory content of the `np.empty([7,255,255])` buffer. -/
def mem7 : List Band := List.replicate 7 (List.replicate 255 (List.replicate 255 (Px.val 9)))

/-- A second, different arbitrary memory content for the same buffer. -/
def mem7' : List Band := List.replicate 7 (List.replicate 255 (List.replicate 255 (Px.val 3)))

/-- A record used by the tile-fetch fixtures. -/
def rec0 : Record :=
  { country := "a", year := 2013, cluster := 1, lat := 0, lon := 0,
    wealthpooled := 5/2, urban_rural := "U", fold := 1 }

/-- A one-record dataset rooted at tile directory `"t"`. -/
def ds0 : MSDataset := { dataframe := [rec0], root_dir := "t" }

/-- A raster file with only 3 bands (insufficient: fewer than the 8 the
loader expects). -/
def shortFile : RasterFile := { bands := List.replicate 3 stdBand }

/-- A valid raster file: 8 well-shaped bands, the first containing a NaN. -/
def fullFile : RasterFile := { bands := nanBand :: List.replicate 7 stdBand }

/-- Tile directory holding only the 3-band file for `rec0`. -/
def fsShort : TifFS := [("t/a_2013/1.tif", shortFile)]

/-- Tile directory holding the valid 8-band file for `rec0`. -/
def fsFull : TifFS := [("t/a_2013/1.tif", fullFile)]

/-- A datamodule whose two records carry fold numbers 1 and 2, with the
default `val_split = 0.2` — the fixture for the fold-split claim. -/
def foldBugModule : PovertyDataModule :=
  { dataframe :=
      [{ rec0 with cluster := 1, fold := 1 },
       { rec0 with cluster := 2, fold := 2 }]
    tif_dir := "examples/poverty/dataset/landsat_tiles/"
    train_batch_size := 32
    inference_batch_size := 16
    val_split := 1/5
    num_workers := 8 }

/-- A datamodule with 100 records and `val_split = 0.2` — the spec's
100-record scenario. -/
def m100 : PovertyDataModule :=
  { dataframe := List.replicate 100 rec0
    tif_dir := "examples/poverty/dataset/landsat_tiles/"
    train_batch_size := 32
    inference_batch_size := 16
    val_split := 1/5
    num_workers := 8 }

/-- An observation frame holding one extra column besides the nine fixed
ones, in a scrambled order. -/
def obsFrame0 : ObsFrame :=
  ("extra", ["e"]) :: ("fold", ["3"]) ::
    (SWAP_COLS.take 8).map (fun c => (c, [c ++ "0"]))

/-- A trainer whose checkpoint save succeeds. -/
def okTrainer : Trainer := { log_dir := "logs", saveFails := none }

/-- A trainer whose checkpoint save raises. -/
def badTrainer : Trainer := { log_dir := "logs", saveFails := some (PyErr.valueError "disk full") }

/-- The number of validation indices `setup` produces, as the spec states it:
`floor(N * val_split)`. -/
def valCount (m : PovertyDataModule) : Nat :=
  (⌊(m.dataframe.length : ℚ) * m.val_split⌋).toNat

/-- The number of training indices `setup` produces: `N - floor(N * val_split)`. -/
def trainCount (m : PovertyDataModule) : Nat :=
  m.dataframe.length - valCount m

/- ## Theorems -/

/- ### Helper lemmas (shared; not tied to any one claim) -/

theorem isOkE_ok {ε α : Type} (a : α) : isOkE (Except.ok a : Except ε α) = true := rfl

theorem bandShapeB_nanToNumBand (b : Band) : bandShapeB (nanToNumBand b) = bandShapeB b := by
  simp [bandShapeB, nanToNumBand, List.all_map, Function.comp_def]

theorem nan_not_mem_nanToNumBand (b : Band) (r : List Px) (hr : r ∈ nanToNumBand b) :
    Px.nan ∉ r := by
  rcases List.mem_map.mp hr with ⟨r0, _, rfl⟩
  intro hn
  rcases List.mem_map.mp hn with ⟨p, _, hp⟩
  cases p <;> simp [nanToNum] at hp

/- ### C6 — interrupt handler saves a checkpoint and exits 0 -/

/-- C6: when the registered interrupt handler (installed for SIGINT by
`CrashHandler.__init__`) receives the user-initiated termination signal and
the checkpoint save succeeds, it synchronously triggers the trainer's
checkpoint save to `<log_dir>/crash_latest_checkpoint.ckpt`, prints the
diagnostic messages, and terminates the process with exit code 0. -/
theorem crash_handler_sigint_saves_then_exits_zero (t : Trainer)
    (h : t.saveFails = none) :
    (crashHandlerMk t).2 = SIGINT ∧
    signal_handler (crashHandlerMk t).1 SIGINT =
      ([Event.print "Received signal 2. Performing cleanup...",
        Event.print "Saving lastest checkpoint...",
        Event.saveCheckpoint (pathJoin t.log_dir "crash_latest_checkpoint.ckpt"),
        Event.exited 0], Except.ok ()) ∧
    processOutcome (signal_handler (crashHandlerMk t).1 SIGINT) = ProcOutcome.exited 0 := by
  refine ⟨rfl, ?_, ?_⟩ <;>
    simp [signal_handler, crashHandlerMk, save_checkpoint, h, SIGINT, processOutcome]; rfl

/-- Witness for C6 at a concrete trainer whose save succeeds. -/
theorem crash_handler_sigint_saves_then_exits_zero_witness :
    okTrainer.saveFails = none ∧
    processOutcome (signal_handler (crashHandlerMk okTrainer).1 SIGINT) = ProcOutcome.exited 0 :=
  ⟨rfl, (crash_handler_sigint_saves_then_exits_zero okTrainer rfl).2.2⟩

/- ### C7 — a save failure in the handler is not caught; the process still exits -/

/-- C7: if the trainer's checkpoint save raises while `signal_handler` is
running, the handler catches nothing (the exception is the handler's outcome
and `exit(0)` is never reached), and the process still exits — with the
runtime's nonzero code for an unhandled exception. -/
theorem crash_handler_save_failure_uncaught (t : Trainer) (e : PyErr)
    (h : t.saveFails = some e) :
    signal_handler (crashHandlerMk t).1 SIGINT =
      ([Event.print "Received signal 2. Performing cleanup...",
        Event.print "Saving lastest checkpoint..."], Except.error e) ∧
    Event.exited 0 ∉ (signal_handler (crashHandlerMk t).1 SIGINT).1 ∧
    processOutcome (signal_handler (crashHandlerMk t).1 SIGINT) = ProcOutcome.exited 1 := by
  refine ⟨?_, ?_, ?_⟩ <;>
    simp [signal_handler, crashHandlerMk, save_checkpoint, h, SIGINT, processOutcome]; rfl

/-- Witness for C7 at a concrete trainer whose save raises. -/
theorem crash_handler_save_failure_uncaught_witness :
    badTrainer.saveFails = some (PyErr.valueError "disk full") ∧
    processOutcome (signal_handler (crashHandlerMk badTrainer).1 SIGINT) = ProcOutcome.exited 1 :=
  ⟨rfl, (crash_handler_save_failure_uncaught badTrainer (PyErr.valueError "disk full") rfl).2.2⟩

/- ### C8 — check_metric error recovery -/

/-- C8 counterexample: a malformed metric specification whose `callable`
string resolves to no name makes `eval` raise `NameError`, which
`check_metric` does NOT catch (it catches only `ValueError` and `KeyError`)
— refuting "for every malformed metric specification, the metric-checking
operation does not raise". -/
theorem check_metric_raises_on_bad_callable_string :
    check_metric (MetricsConf.dictlike [("mse", MetricEntry.dict (some "mse_loss"))])
      = Except.error (PyErr.nameError "mse_loss") := by
  rfl

/-- C8 amended: for a malformed metric specification that raises `ValueError`
or `KeyError` — a metric name with no registered callable and no explicit
`callable` key, or a non-dict-like `metrics` config — `check_metric` does not
raise: it prints a warning and returns the disabled-metrics fallback `None`.
Other malformed specifications (e.g. an unresolvable `callable` string)
propagate their exception. -/
theorem check_metric_fallback_on_keyerror_or_valueerror
    (k : String) (hk : FMETRICS_CALLABLES.find? (fun p => p.1 == k) = none) (d : String) :
    check_metric (MetricsConf.dictlike [(k, MetricEntry.dict none)]) = Except.ok none ∧
    check_metric (MetricsConf.notDictlike d) = Except.ok none := by
  refine ⟨?_, rfl⟩
  simp [check_metric, resolveMetricEntries, resolveMetricEntry, hk]

/-- Witness for the amended C8 at the unregistered metric name `"accuracy"`
and a scalar `metrics` config value. -/
theorem check_metric_fallback_witness :
    check_metric (MetricsConf.dictlike [("accuracy", MetricEntry.dict none)]) = Except.ok none ∧
    check_metric (MetricsConf.notDictlike "0.5") = Except.ok none :=
  check_metric_fallback_on_keyerror_or_valueerror "accuracy" (by rfl) "0.5"

/- ### C9 — column reprojection is idempotent -/

/-- Looking a requested column up in a reprojected frame gives the same
column the original frame had. -/
theorem dfGetCol_projected (df : ObsFrame) (cols : List String) (c : String)
    (hc : c ∈ cols) :
    dfGetCol (cols.map (fun x => (x, (dfGetCol df x).getD []))) c
      = some ((dfGetCol df c).getD []) := by
  induction cols with
  | nil => simp at hc
  | cons a as ih =>
      by_cases h : a = c
      · subst h
        simp [dfGetCol, List.find?_cons_of_pos]
      · have hne : ((fun p => p.1 == c) ((a, (dfGetCol df a).getD []))) = false := by
          simp [h]
        have hc' : c ∈ as := by
          rcases List.mem_cons.mp hc with h1 | h1
          · exact absurd h1.symm h
          · exact h1
        have := ih hc'
        simpa [dfGetCol, List.find?_cons_of_neg, hne] using this

/-- C9: reprojection onto the fixed column set is idempotent — reprojecting an
already-reprojected frame succeeds and returns it unchanged.  The operation
only selects and reorders the fixed named fields; no renaming or derivation. -/
theorem swap_observation_columns_idempotent (df df' : ObsFrame)
    (h : swap_observation_columns df = Except.ok df') :
    swap_observation_columns df' = Except.ok df' := by
  unfold swap_observation_columns at h
  split at h
  case isFalse => exact absurd h (by simp)
  case isTrue hcond =>
      cases h
      unfold swap_observation_columns
      rw [if_pos]
      · exact congrArg Except.ok (List.map_congr_left fun c hc => by
          rw [dfGetCol_projected df SWAP_COLS c hc]; rfl)
      · rw [List.all_eq_true]
        intro c hc
        rw [dfGetCol_projected df SWAP_COLS c hc]
        rfl

/-- Witness for C9: a concrete frame with an extra column and scrambled order
is reprojected once, and reprojecting the result returns it unchanged. -/
theorem swap_observation_columns_idempotent_witness :
    swap_observation_columns obsFrame0
      = Except.ok (SWAP_COLS.map (fun c => (c, (dfGetCol obsFrame0 c).getD []))) ∧
    swap_observation_columns (SWAP_COLS.map (fun c => (c, (dfGetCol obsFrame0 c).getD [])))
      = Except.ok (SWAP_COLS.map (fun c => (c, (dfGetCol obsFrame0 c).getD []))) :=
  ⟨by rfl, swap_observation_columns_idempotent obsFrame0 _ (by rfl)⟩

/- ### C10 — extra keyword arguments are silently ignored -/

/-- C10: `PovertyDataModule.__init__` accepts arbitrary extra keyword
arguments and silently drops them (`fold=...` among them, as passed by the
fold loop of `cnn_on_ms_poverty.py`): two constructions differing only in the
extra keyword arguments (and in the equally unused `cach_data`) produce equal
datamodules, no error, and identical `setup` split behavior for every
permutation. -/
theorem povertyInit_ignores_extra_kwargs
    (csvFS : CsvFS) (tif_dir dataset_path labels_name : String)
    (tbs ibs nw : Nat) (cd cd' : Bool) (vs : ℚ)
    (kwargs kwargs' : List (String × Int)) (perm : List Nat) :
    povertyInit csvFS tif_dir dataset_path labels_name tbs ibs nw cd vs kwargs
      = povertyInit csvFS tif_dir dataset_path labels_name tbs ibs nw cd' vs kwargs' ∧
    (povertyInit csvFS tif_dir dataset_path labels_name tbs ibs nw cd vs kwargs).map
        (fun m => povertySetup m perm)
      = (povertyInit csvFS tif_dir dataset_path labels_name tbs ibs nw cd' vs kwargs').map
        (fun m => povertySetup m perm) :=
  ⟨rfl, rfl⟩

/- ### C1 — the fold-column split the spec describes does not happen -/

/-- C1 (against the code): `setup` on the two-record fixture with fold
numbers `[1, 2]` and the default `val_split = 0.2` puts BOTH records in the
training subset and leaves validation empty — the record whose fold field
equals the target fold `k = 1` (passed by the caller as `fold=1` and
silently swallowed by `**kwargs`) is not assigned to validation.  The fold
column is never read by `setup`. -/
theorem povertySetup_ignores_fold_column :
    povertySetup foldBugModule [0, 1] = Except.ok ([0, 1], []) ∧
    foldBugModule.dataframe.map Record.fold = [1, 2] := by
  have hlen : foldBugModule.dataframe.length = 2 := rfl
  have hq : ((foldBugModule.dataframe.length : ℚ)) * foldBugModule.val_split = 2/5 := by
    rw [hlen]; norm_num [foldBugModule]
  have hfl : ⌊((foldBugModule.dataframe.length : ℚ)) * foldBugModule.val_split⌋ = 0 := by
    rw [hq, Int.floor_eq_zero_iff]
    constructor <;> norm_num
  have hpos : (0:ℚ) ≤ ((foldBugModule.dataframe.length : ℚ)) * foldBugModule.val_split := by
    rw [hq]; norm_num
  constructor
  · simp only [povertySetup, pyInt, random_split]
    rw [if_pos hpos, hfl, hlen]
    norm_num
  · rfl

/- ### C4 — random split sizes -/

/-- C4: for every datamodule whose `val_split` lies in `(0,1)` and every
permutation of the record indices, `setup` succeeds and partitions the index
set into a validation subset of size `floor(N * val_split)` and a training
subset of size `N - floor(N * val_split)`; the two subsets are disjoint and
their sizes sum to `N`. -/
theorem povertySetup_random_split_sizes (m : PovertyDataModule) (perm : List Nat)
    (hperm : perm.Perm (List.range m.dataframe.length))
    (h0 : 0 < m.val_split) (h1 : m.val_split < 1) :
    povertySetup m perm = Except.ok
      (perm.take (trainCount m), (perm.drop (trainCount m)).take (valCount m)) ∧
    (perm.take (trainCount m)).length = trainCount m ∧
    ((perm.drop (trainCount m)).take (valCount m)).length = valCount m ∧
    trainCount m + valCount m = m.dataframe.length ∧
    ∀ i ∈ perm.take (trainCount m), i ∉ (perm.drop (trainCount m)).take (valCount m) := by
  set N := m.dataframe.length with hN
  set q : ℚ := (N : ℚ) * m.val_split with hqdef
  have hlenperm : perm.length = N := by
    rw [hperm.length_eq, List.length_range]
  have hq0 : 0 ≤ q := mul_nonneg (Nat.cast_nonneg N) h0.le
  have hfl0 : 0 ≤ ⌊q⌋ := Int.floor_nonneg.mpr hq0
  have hqN : q ≤ (N : ℚ) := by
    calc q = (N : ℚ) * m.val_split := hqdef
    _ ≤ (N : ℚ) * 1 := by
        exact mul_le_mul_of_nonneg_left h1.le (Nat.cast_nonneg N)
    _ = (N : ℚ) := mul_one _
  have hflN : ⌊q⌋ ≤ (N : ℤ) := by
    have := Int.floor_le_floor hqN
    rwa [Int.floor_natCast] at this
  have hval : valCount m = ⌊q⌋.toNat := rfl
  have htrain : trainCount m = N - ⌊q⌋.toNat := rfl
  have hsetup : povertySetup m perm = Except.ok
      (perm.take (trainCount m), (perm.drop (trainCount m)).take (valCount m)) := by
    simp only [povertySetup, pyInt, random_split, ← hN, ← hqdef]
    rw [if_pos hq0, if_pos ⟨by ring, by omega, hfl0⟩]
    have h2 : ((N : ℤ) - ⌊q⌋).toNat = trainCount m := by
      rw [htrain]; omega
    rw [h2, hval]
  refine ⟨hsetup, ?_, ?_, ?_, ?_⟩
  · rw [List.length_take, hlenperm]
    omega
  · rw [List.length_take, List.length_drop, hlenperm]
    rw [hval, htrain]
    omega
  · rw [hval, htrain]; omega
  · intro i hi hmem
    have hnd : perm.Nodup := hperm.nodup_iff.mpr (List.nodup_range N)
    exact List.disjoint_take_drop hnd (le_refl (trainCount m)) hi
      (List.mem_of_mem_take hmem)

/-- Witness for C4: the spec's 100-record scenario with `val_split = 0.2`
gives a training subset of 80 indices and a validation subset of 20. -/
theorem povertySetup_random_split_sizes_witness :
    povertySetup m100 (List.range 100) = Except.ok
      ((List.range 100).take (trainCount m100),
       ((List.range 100).drop (trainCount m100)).take (valCount m100)) ∧
    trainCount m100 = 80 ∧ valCount m100 = 20 := by
  have hlen : m100.dataframe.length = 100 := by
    simp [m100]
  have hval : valCount m100 = 20 := by
    have hq : ((m100.dataframe.length : ℚ)) * m100.val_split = 20 := by
      rw [hlen]; norm_num [m100]
    have : ⌊((m100.dataframe.length : ℚ)) * m100.val_split⌋ = 20 := by
      rw [hq]
      norm_num
    simp [valCount, this]
  refine ⟨(povertySetup_random_split_sizes m100 (List.range 100) ?_ ?_ ?_).1, ?_, hval⟩
  · rw [hlen]
  · norm_num [m100]
  · norm_num [m100]
  · rw [trainCount, hval, hlen]

/- ### The band-copy loop -/

/-- Characterization of the copy loop: when all `todo` positions starting at
`start` fit in both the buffer and the source, and the copied bands are
well-shaped, the loop succeeds and replaces exactly the slice
`[start, start+todo)` of the buffer with the corresponding source bands. -/
theorem writeBandsFrom_spec (src : List Band) (todo : Nat) :
    ∀ (start : Nat) (buf : List Band),
      start + todo ≤ buf.length →
      start + todo ≤ src.length →
      (∀ j, start ≤ j → j < start + todo → bandShapeB (src.getD j []) = true) →
      writeBandsFrom src start todo buf =
        Except.ok (buf.take start ++ (src.drop start).take todo ++ buf.drop (start + todo)) := by
  induction todo with
  | zero =>
      intro start buf _ _ _
      simp [writeBandsFrom, List.take_append_drop]
  | succ t ih =>
      intro start buf h1 h2 h3
      have hlt : start < buf.length := by omega
      have hlts : start < src.length := by omega
      have hsh : bandShapeB (src.getD start []) = true :=
        h3 start le_rfl (by omega)
      have hrec := ih (start + 1) (buf.set start (src.getD start []))
        (by rw [List.length_set]; omega) (by omega)
        (fun j hj1 hj2 => h3 j (by omega) (by omega))
      simp only [writeBandsFrom]
      rw [if_pos hlt, if_pos hsh, hrec]
      congr 1
      rw [List.set_eq_take_cons_drop _ hlt]
      have hlentake : (buf.take start).length = start := by
        rw [List.length_take]; omega
      rw [List.take_append_eq_append_take, List.drop_append_eq_append_drop]
      rw [List.take_take, hlentake]
      have h4 : min (start + 1) start = start := by omega
      have h5 : start + 1 - start = 1 := by omega
      have h6 : start + 1 + t - start = t + 1 := by omega
      rw [h4, h5, h6]
      have h7 : (buf.take start).drop (start + 1 + t) = [] :=
        List.drop_eq_nil_of_le (by omega)
      rw [h7]
      rw [List.drop_eq_getElem_cons hlts]
      rw [List.getD_eq_getElem _ _ hlts]
      have h8 : start + (t + 1) = start + 1 + t := by omega
      rw [h8]
      simp [List.take_succ_cons, List.drop_succ_cons, List.drop_drop,
        List.append_assoc, List.cons_append, List.singleton_append]
      rw [List.drop_eq_getElem_cons hlts, List.take_succ_cons, List.cons_append]

/-- A 255×255 replicate band is well-shaped. -/
theorem bandShapeB_replicate (p : Px) :
    bandShapeB (List.replicate 255 (List.replicate 255 p)) = true := by
  unfold bandShapeB
  rw [Bool.and_eq_true, List.length_replicate, List.all_eq_true]
  refine ⟨rfl, ?_⟩
  intro r hr
  rcases List.mem_replicate.mp hr with ⟨-, rfl⟩
  rw [List.length_replicate]
  decide

theorem bandShapeB_stdBand : bandShapeB stdBand = true :=
  bandShapeB_replicate (Px.val 1)

theorem bandShapeB_nanBand : bandShapeB nanBand = true := by
  unfold bandShapeB nanBand
  rw [Bool.and_eq_true, List.all_eq_true]
  refine ⟨?_, ?_⟩
  · rw [List.length_cons, List.length_replicate]
    decide
  · intro r hr
    rcases List.mem_cons.mp hr with rfl | hr
    · rw [List.length_cons, List.length_replicate]
      decide
    · rcases List.mem_replicate.mp hr with ⟨-, rfl⟩
      rw [stdRow, List.length_replicate]
      decide

/-- Fetching a record whose tile file is present with `n ≤ 8` well-shaped
bands succeeds: the first `n-1` buffer rows become the file's first `n-1`
bands, the remaining rows keep the buffer's prior memory contents, and
`nan_to_num` runs over everything. -/
theorem msGetitem_ok_characterization (ds : MSDataset) (fs : TifFS) (mem : List Band)
    (idx : Nat) (row : Record) (file : RasterFile)
    (hrow : ds.dataframe[idx]? = some row)
    (hfile : fsOpen fs (tileName ds row) = some file)
    (hn : file.bands.length ≤ 8)
    (hshape : ∀ b ∈ file.bands, bandShapeB b = true)
    (hmem : mem.length = 7) :
    msGetitem ds fs mem idx = Except.ok
      (((file.bands.take (file.bands.length - 1)
          ++ mem.drop (file.bands.length - 1)).map nanToNumBand),
       row.wealthpooled) := by
  simp only [msGetitem, hrow, hfile]
  rw [writeBandsFrom_spec file.bands (file.bands.length - 1) 0 mem
    (by omega) (by omega) ?hsh]
  case hsh =>
    intro j _ hj
    have hjlt : j < file.bands.length := by omega
    rw [List.getD_eq_getElem _ _ hjlt]
    exact hshape _ (List.getElem_mem hjlt)
  simp

/- ### C2 — missing tile file raises; short files do NOT raise -/

/-- C2 counterexample: fetching a record whose tile file exists but has only
3 bands (insufficient: fewer than the expected 8) does NOT raise any error —
refuting "fetch on a tile file with an insufficient band count raises
TileFormatError". -/
theorem msGetitem_short_file_no_error :
    isOkE (msGetitem ds0 fsShort mem7 0) = true := by
  rw [msGetitem_ok_characterization ds0 fsShort mem7 0 rec0 shortFile (by rfl) (by rfl)
    (by norm_num [shortFile])
    (by
      intro b hb
      simp only [shortFile] at hb
      rcases List.mem_replicate.mp hb with ⟨-, rfl⟩
      exact bandShapeB_stdBand)
    (by rfl)]
  rfl

/-- C2 amended: fetch on a record whose tile file is absent raises the
file-not-found error (`RasterioIOError`, the spec's `TileNotFoundError`) —
never a zero-filled tile, and never a skip; but fetch on a tile file with an
insufficient band count does NOT raise a format error: it succeeds, copying
the `n-1` available leading bands and leaving the remaining buffer rows at
their arbitrary pre-allocation contents. -/
theorem msGetitem_absent_or_short_tile (ds : MSDataset) (fs : TifFS) (mem : List Band)
    (idx : Nat) (row : Record)
    (hrow : ds.dataframe[idx]? = some row) :
    (fsOpen fs (tileName ds row) = none →
      msGetitem ds fs mem idx = Except.error (PyErr.rasterioNotFound (tileName ds row))) ∧
    (∀ file, fsOpen fs (tileName ds row) = some file →
      file.bands.length ≤ 8 →
      (∀ b ∈ file.bands, bandShapeB b = true) →
      mem.length = 7 →
      msGetitem ds fs mem idx = Except.ok
        ((file.bands.take (file.bands.length - 1)
            ++ mem.drop (file.bands.length - 1)).map nanToNumBand,
         row.wealthpooled)) := by
  constructor
  · intro hnone
    simp [msGetitem, hrow, hnone]
  · intro file hfile hn hshape hmem
    exact msGetitem_ok_characterization ds fs mem idx row file hrow hfile hn hshape hmem

/-- Witness for the amended C2: an absent tile file raises the not-found
error, and a present 3-band file succeeds with the leftover buffer rows in
the result. -/
theorem msGetitem_absent_or_short_tile_witness :
    msGetitem ds0 [] mem7 0 = Except.error (PyErr.rasterioNotFound (tileName ds0 rec0)) ∧
    msGetitem ds0 fsShort mem7 0 = Except.ok
      ((shortFile.bands.take (shortFile.bands.length - 1)
          ++ mem7.drop (shortFile.bands.length - 1)).map nanToNumBand,
       rec0.wealthpooled) :=
  ⟨(msGetitem_absent_or_short_tile ds0 [] mem7 0 rec0 (by rfl)).1 (by rfl),
   (msGetitem_absent_or_short_tile ds0 fsShort mem7 0 rec0 (by rfl)).2 shortFile (by rfl)
     (by norm_num [shortFile])
     (by
       intro b hb
       simp only [shortFile] at hb
       rcases List.mem_replicate.mp hb with ⟨-, rfl⟩
       exact bandShapeB_stdBand)
     (by rfl)⟩

/- ### C3 — a valid 8-band record yields a [7,255,255] NaN-free tile -/

/-- C3: for every valid record — tile file present with the expected 8
well-shaped bands — fetch returns the first 7 bands with the trailing band
excluded, as a 7-band tile of 255×255 rows in which every NaN read from the
file was replaced by 0, so the result contains no NaN. -/
theorem msGetitem_valid_record_tile (ds : MSDataset) (fs : TifFS) (mem : List Band)
    (idx : Nat) (row : Record) (file : RasterFile)
    (hrow : ds.dataframe[idx]? = some row)
    (hfile : fsOpen fs (tileName ds row) = some file)
    (h8 : file.bands.length = 8)
    (hshape : ∀ b ∈ file.bands, bandShapeB b = true)
    (hmem : mem.length = 7) :
    msGetitem ds fs mem idx =
      Except.ok ((file.bands.take 7).map nanToNumBand, row.wealthpooled) ∧
    ((file.bands.take 7).map nanToNumBand).length = 7 ∧
    (∀ b ∈ (file.bands.take 7).map nanToNumBand, bandShapeB b = true) ∧
    (∀ b ∈ (file.bands.take 7).map nanToNumBand, ∀ r ∈ b, Px.nan ∉ r) := by
  have hchar := msGetitem_ok_characterization ds fs mem idx row file hrow hfile
    (by omega) hshape hmem
  have hdrop : mem.drop (file.bands.length - 1) = [] :=
    List.drop_eq_nil_of_le (by omega)
  rw [hdrop, List.append_nil, h8] at hchar
  refine ⟨by simpa using hchar, ?_, ?_, ?_⟩
  · rw [List.length_map, List.length_take, h8]
    omega
  · intro b hb
    rcases List.mem_map.mp hb with ⟨b0, hb0, rfl⟩
    rw [bandShapeB_nanToNumBand]
    exact hshape b0 (List.mem_of_mem_take hb0)
  · intro b hb r hr
    rcases List.mem_map.mp hb with ⟨b0, _, rfl⟩
    exact nan_not_mem_nanToNumBand b0 r hr

/-- Witness for C3 at a concrete valid record whose file's first band holds
a NaN pixel. -/
theorem msGetitem_valid_record_tile_witness :
    msGetitem ds0 fsFull mem7 0 =
      Except.ok ((fullFile.bands.take 7).map nanToNumBand, rec0.wealthpooled) ∧
    ((fullFile.bands.take 7).map nanToNumBand).length = 7 :=
  have h := msGetitem_valid_record_tile ds0 fsFull mem7 0 rec0 fullFile (by rfl) (by rfl)
    (by norm_num [fullFile])
    (by
      intro b hb
      simp only [fullFile, List.mem_cons] at hb
      rcases hb with rfl | hb
      · exact bandShapeB_nanBand
      · rcases List.mem_replicate.mp hb with ⟨-, rfl⟩
        exact bandShapeB_stdBand)
    (by rfl)
  ⟨h.1, h.2.1⟩

/- ### C5 — the item accessor is pure and deterministic -/

/-- C5: `__getitem__` mutates nothing (it is a function of the dataset, the
files on disk and the index), and for a valid record two calls with the same
index return bit-identical `(tile, label)` results even across different
arbitrary contents of the freshly allocated numpy buffer — the only thing
that can differ between two otherwise identical calls. -/
theorem msGetitem_deterministic (ds : MSDataset) (fs : TifFS) (mem mem' : List Band)
    (idx : Nat) (row : Record) (file : RasterFile)
    (hrow : ds.dataframe[idx]? = some row)
    (hfile : fsOpen fs (tileName ds row) = some file)
    (h8 : file.bands.length = 8)
    (hshape : ∀ b ∈ file.bands, bandShapeB b = true)
    (hmem : mem.length = 7) (hmem' : mem'.length = 7) :
    msGetitem ds fs mem idx = msGetitem ds fs mem' idx := by
  rw [msGetitem_ok_characterization ds fs mem idx row file hrow hfile (by omega) hshape hmem,
    msGetitem_ok_characterization ds fs mem' idx row file hrow hfile (by omega) hshape hmem']
  have hd : List.drop (file.bands.length - 1) mem = [] :=
    List.drop_eq_nil_of_le (by omega)
  have hd' : List.drop (file.bands.length - 1) mem' = [] :=
    List.drop_eq_nil_of_le (by omega)
  rw [hd, hd']

/-- Witness for C5: two fetches of the same valid record through buffers with
different prior memory contents agree. -/
theorem msGetitem_deterministic_witness :
    msGetitem ds0 fsFull mem7 0 = msGetitem ds0 fsFull mem7' 0 :=
  msGetitem_deterministic ds0 fsFull mem7 mem7' 0 rec0 fullFile (by rfl) (by rfl)
    (by norm_num [fullFile])
    (by
      intro b hb
      simp only [fullFile, List.mem_cons] at hb
      rcases hb with rfl | hb
      · exact bandShapeB_nanBand
      · rcases List.mem_replicate.mp hb with ⟨-, rfl⟩
        exact bandShapeB_stdBand)
    (by rfl) (by rfl)
